import Mathlib

/-!
LBANN `Layer` base class (`include/lbann/layers/lbann_layer.hpp`)

A shallow embedding of the header: the two enumerations, the static classifier
`_layer_type_to_category`, the data members of `Layer`, and every member function whose
body is given inline in the header.

Conventions.
* A scoped enumeration has underlying type `int`, so an object of the enumeration type can
  hold any `int`; it is represented by that integer, the enumerators being the constants
  `0, 1, 2, …` in declaration order.
* `throw` of a `std::string` is `Except.error` of the string.
* A pointer is the address it holds (`0` is `nullptr`).
* A `double` is its IEEE-754 binary64 bit pattern; the literal `0.0` is the all-zero pattern.
* A member function that mutates `*this` is a function from the object state (and the
  arguments) to the new object state.
-/

namespace lbann

/-- The enumeration `layer_type`, held as its underlying `int`. -/
structure layer_type where
  val : Int
deriving DecidableEq, Repr

namespace layer_type

def fully_connected : layer_type := ⟨0⟩
def convolution : layer_type := ⟨1⟩
def softmax : layer_type := ⟨2⟩
def activation : layer_type := ⟨3⟩
def pooling : layer_type := ⟨4⟩
def local_response_normalization : layer_type := ⟨5⟩
def dropout : layer_type := ⟨6⟩
def batch_normalization : layer_type := ⟨7⟩
def input_distributed_minibatch : layer_type := ⟨8⟩
def input_distributed_minibatch_parallel_io : layer_type := ⟨9⟩
def input_partitioned_minibatch_parallel_io : layer_type := ⟨10⟩
def target_distributed_minibatch : layer_type := ⟨11⟩
def target_distributed_minibatch_parallel_io : layer_type := ⟨12⟩
def target_partitioned_minibatch_parallel_io : layer_type := ⟨13⟩
def reconstruction : layer_type := ⟨14⟩
def INVALID : layer_type := ⟨15⟩

/-- The sixteen enumerators, in declaration order. -/
def enumerators : List layer_type :=
  [fully_connected, convolution, softmax, activation, pooling,
   local_response_normalization, dropout, batch_normalization,
   input_distributed_minibatch, input_distributed_minibatch_parallel_io,
   input_partitioned_minibatch_parallel_io, target_distributed_minibatch,
   target_distributed_minibatch_parallel_io, target_partitioned_minibatch_parallel_io,
   reconstruction, INVALID]

end layer_type

/-- The enumeration `layer_category`.  The classifier only ever produces one of the seven
enumerators, so the result type is the closed enumeration. -/
inductive layer_category where
  | io
  | learning
  | activation
  | regularizer
  | transform
  | special
  | invalid
deriving DecidableEq, Repr

deriving instance DecidableEq for Except

/-- How control leaves a statement: by `return v`, by `throw e`, or by running off its end
into the statement that follows. -/
inductive Flow (ε α : Type) where
  | ret (v : α)
  | thrown (e : ε)
  | fallthrough
deriving DecidableEq, Repr

/-- The `switch(l) { … }` statement of `_layer_type_to_category` (lines 90–116).  `file` is
the expansion of `__FILE__`; `__LINE__` on the `throw` line is 115. -/
def _layer_type_to_category_switch (file : String) (l : layer_type) :
    Flow String layer_category :=
  if l = layer_type.fully_connected ∨ l = layer_type.convolution then
    .ret layer_category.learning
  else if l = layer_type.softmax ∨ l = layer_type.activation then
    .ret layer_category.activation
  else if l = layer_type.pooling then
    .ret layer_category.transform
  else if l = layer_type.local_response_normalization ∨ l = layer_type.dropout
      ∨ l = layer_type.batch_normalization then
    .ret layer_category.regularizer
  else if l = layer_type.input_distributed_minibatch
      ∨ l = layer_type.input_distributed_minibatch_parallel_io
      ∨ l = layer_type.input_partitioned_minibatch_parallel_io
      ∨ l = layer_type.target_distributed_minibatch
      ∨ l = layer_type.target_distributed_minibatch_parallel_io
      ∨ l = layer_type.target_partitioned_minibatch_parallel_io then
    .ret layer_category.io
  else if l = layer_type.reconstruction then
    .ret layer_category.special
  else if l = layer_type.INVALID then
    .ret layer_category.invalid
  else
    .thrown ("" ++ file ++ " " ++ toString (115 : Nat) ++ " Invalid layer_type specified")

/-- The function `_layer_type_to_category`: the switch, followed by the trailing
`return layer_category::invalid;` of line 117. -/
def _layer_type_to_category (file : String) (l : layer_type) :
    Except String layer_category :=
  match _layer_type_to_category_switch file l with
  | .ret c => .ok c
  | .thrown e => .error e
  | .fallthrough => .ok layer_category.invalid

/-- Modelled from the spec: the enumeration `execution_mode` is declared in
`lbann/lbann_base.hpp`, which is not among the sources.  The spec names the modes train,
validate and test and calls the set extensible, so a value is held as its underlying
integer and no enumerator is fixed here. -/
structure execution_mode where
  val : Int
deriving DecidableEq, Repr

/-- Modelled from the spec: the enumeration `data_layout` is declared in
`lbann/lbann_base.hpp`, which is not among the sources.  The header names the enumerator
`MODEL_PARALLEL`; the spec says there are two distribution layouts, model-parallel and
data-parallel. -/
inductive data_layout where
  | MODEL_PARALLEL
  | DATA_PARALLEL
deriving DecidableEq, Repr

/-- A `double`, as its binary64 bit pattern. -/
structure double where
  bits : Nat
deriving DecidableEq, Repr

/-- The literal `0.0`: sign 0, exponent 0, fraction 0. -/
def double.zero : double := ⟨0⟩

/-- A pointer value (`lbann_comm *`, `ElMat *`, `model *`, `cudnn::cudnn_manager *`,
`DataType *`, `std::vector<DataType *> *`): the address held, `0` for `nullptr`. -/
abbrev ptr := Nat

/-- The data members of `class Layer`, in declaration order (lines 257–361).  The members
from `m_fp_input_pinned` to `bp_input_d` exist only when `__LIB_CUDNN` is defined; no
function embedded here reads or writes them. -/
structure Layer where
  m_index : Int
  m_name : String
  m_comm : ptr
  m_type : layer_type
  m_prev_layer_type : layer_type
  m_next_layer_type : layer_type
  m_num_neurons : Int
  m_num_prev_neurons : Int
  m_execution_mode : execution_mode
  m_prev_error_signal : ptr
  m_activations : ptr
  m_prev_error_signal_v : ptr
  m_activations_v : ptr
  fp_input : ptr
  bp_input : ptr
  m_neural_network_model : ptr
  m_error_signal : ptr
  m_prev_activations : ptr
  m_error_signal_v : ptr
  m_prev_activations_v : ptr
  m_using_gpus : Bool
  m_prev_layer_using_gpus : Bool
  m_next_layer_using_gpus : Bool
  m_cudnn : ptr
  m_fp_input_pinned : Bool
  m_fp_output_pinned : Bool
  m_bp_input_pinned : Bool
  m_bp_output_pinned : Bool
  m_mini_batch_size_per_gpu : Int
  m_prev_activations_d : List ptr
  m_activations_d : List ptr
  m_prev_error_signal_d : List ptr
  m_error_signal_d : List ptr
  fp_input_d : ptr
  bp_input_d : ptr
  m_mini_batch_size : Int
  m_effective_mbsize : Int
  fp_time : double
  fp_compute_time : double
  bp_time : double
  bp_compute_time : double
  update_time : double
deriving DecidableEq, Repr

namespace Layer

/-- Line 154: `get_type() const { return m_type; }`. -/
def get_type (self : Layer) : layer_type := self.m_type

/-- Line 159: `get_name() const { return m_name; }`. -/
def get_name (self : Layer) : String := self.m_name

/-- Line 164: `set_name(std::string name) { m_name = name; }`. -/
def set_name (self : Layer) (name : String) : Layer := { self with m_name := name }

/-- Line 169: `get_index() const { return m_index; }`. -/
def get_index (self : Layer) : Int := self.m_index

/-- Line 173: `set_index(int i) { m_index = i; }`. -/
def set_index (self : Layer) (i : Int) : Layer := { self with m_index := i }

/-- Line 177: `get_num_neurons() const { return m_num_neurons; }`. -/
def get_num_neurons (self : Layer) : Int := self.m_num_neurons

/-- Line 181: `get_execution_mode() const { return m_execution_mode; }`. -/
def get_execution_mode (self : Layer) : execution_mode := self.m_execution_mode

/-- Line 185: `set_execution_mode(execution_mode mode) { m_execution_mode = mode; }`. -/
def set_execution_mode (self : Layer) (mode : execution_mode) : Layer :=
  { self with m_execution_mode := mode }

/-- Line 190: `get_data_layout() { return data_layout::MODEL_PARALLEL; }`.  The function is
not `const`, so it yields the value together with the (untouched) object. -/
def get_data_layout (self : Layer) : data_layout × Layer := (data_layout.MODEL_PARALLEL, self)

/-- Lines 196–200: `reset_counters()`. -/
def reset_counters (self : Layer) : Layer :=
  let s1 := { self with fp_time := double.zero }
  let s2 := { s1 with bp_time := double.zero }
  { s2 with update_time := double.zero }

/-- Line 203: `get_minibatch_size() const { return m_mini_batch_size; }`. -/
def get_minibatch_size (self : Layer) : Int := self.m_mini_batch_size

/-- Line 212: `get_effective_minibatch_size() const { return m_effective_mbsize; }`. -/
def get_effective_minibatch_size (self : Layer) : Int := self.m_effective_mbsize

/-- Line 216: `set_effective_minibatch_size(int size) { m_effective_mbsize = size; }`. -/
def set_effective_minibatch_size (self : Layer) (size : Int) : Layer :=
  { self with m_effective_mbsize := size }

/-- Line 238: `get_neural_network_model() const { return m_neural_network_model; }`. -/
def get_neural_network_model (self : Layer) : ptr := self.m_neural_network_model

/-- Line 242: `set_neural_network_model(model* const m) { m_neural_network_model = m; }`. -/
def set_neural_network_model (self : Layer) (m : ptr) : Layer :=
  { self with m_neural_network_model := m }

/-- Line 302: `virtual void fp_compute() {}`. -/
def fp_compute (self : Layer) : Layer := self

/-- Line 304: `virtual void bp_compute() {}`. -/
def bp_compute (self : Layer) : Layer := self

/-- Line 306: `virtual bool update_compute() { return true; }`: the returned flag and the
object afterwards. -/
def update_compute (self : Layer) : Bool × Layer := (true, self)

end Layer

/-- A concrete layer object used to evaluate the member functions: index 0, four neurons,
mini-batch size 8, every pointer null, timers holding the bit patterns of 1.0, 2.0, 3.0,
4.0 and 5.0. -/
def sample_layer : Layer where
  m_index := 0
  m_name := "fc0"
  m_comm := 0
  m_type := layer_type.fully_connected
  m_prev_layer_type := layer_type.INVALID
  m_next_layer_type := layer_type.softmax
  m_num_neurons := 4
  m_num_prev_neurons := 4
  m_execution_mode := ⟨0⟩
  m_prev_error_signal := 0
  m_activations := 0
  m_prev_error_signal_v := 0
  m_activations_v := 0
  fp_input := 0
  bp_input := 0
  m_neural_network_model := 0
  m_error_signal := 0
  m_prev_activations := 0
  m_error_signal_v := 0
  m_prev_activations_v := 0
  m_using_gpus := false
  m_prev_layer_using_gpus := false
  m_next_layer_using_gpus := false
  m_cudnn := 0
  m_fp_input_pinned := false
  m_fp_output_pinned := false
  m_bp_input_pinned := false
  m_bp_output_pinned := false
  m_mini_batch_size_per_gpu := 0
  m_prev_activations_d := []
  m_activations_d := []
  m_prev_error_signal_d := []
  m_error_signal_d := []
  fp_input_d := 0
  bp_input_d := 0
  m_mini_batch_size := 8
  m_effective_mbsize := 8
  fp_time := ⟨0x3FF0000000000000⟩
  fp_compute_time := ⟨0x4000000000000000⟩
  bp_time := ⟨0x4008000000000000⟩
  bp_compute_time := ⟨0x4010000000000000⟩
  update_time := ⟨0x4014000000000000⟩

end lbann

open lbann

/-! ## Auxiliary facts about the classifier -/

/-- The enumerators are exactly the values with underlying integer in `0..15`. -/
theorem layer_type.mem_enumerators_iff (l : layer_type) :
    l ∈ layer_type.enumerators ↔ 0 ≤ l.val ∧ l.val ≤ 15 := by
  obtain ⟨v⟩ := l
  simp only [layer_type.enumerators, layer_type.fully_connected, layer_type.convolution,
    layer_type.softmax, layer_type.activation, layer_type.pooling,
    layer_type.local_response_normalization, layer_type.dropout,
    layer_type.batch_normalization, layer_type.input_distributed_minibatch,
    layer_type.input_distributed_minibatch_parallel_io,
    layer_type.input_partitioned_minibatch_parallel_io,
    layer_type.target_distributed_minibatch,
    layer_type.target_distributed_minibatch_parallel_io,
    layer_type.target_partitioned_minibatch_parallel_io, layer_type.reconstruction,
    layer_type.INVALID, List.mem_cons, List.not_mem_nil, or_false, layer_type.mk.injEq]
  constructor
  · intro h
    omega
  · intro h
    omega

/-- Case analysis over the enumerators: a property that holds at each of the sixteen
constants holds at every member of `layer_type.enumerators`. -/
theorem layer_type.forall_enumerators (P : layer_type → Prop)
    (h : P layer_type.fully_connected ∧ P layer_type.convolution ∧ P layer_type.softmax ∧
      P layer_type.activation ∧ P layer_type.pooling ∧
      P layer_type.local_response_normalization ∧ P layer_type.dropout ∧
      P layer_type.batch_normalization ∧ P layer_type.input_distributed_minibatch ∧
      P layer_type.input_distributed_minibatch_parallel_io ∧
      P layer_type.input_partitioned_minibatch_parallel_io ∧
      P layer_type.target_distributed_minibatch ∧
      P layer_type.target_distributed_minibatch_parallel_io ∧
      P layer_type.target_partitioned_minibatch_parallel_io ∧
      P layer_type.reconstruction ∧ P layer_type.INVALID)
    (l : layer_type) (hl : l ∈ layer_type.enumerators) : P l := by
  obtain ⟨h0, h1, h2, h3, h4, h5, h6, h7, h8, h9, h10, h11, h12, h13, h14, h15⟩ := h
  simp only [layer_type.enumerators, List.mem_cons, List.mem_singleton] at hl
  rcases hl with rfl | rfl | rfl | rfl | rfl | rfl | rfl | rfl | rfl | rfl | rfl | rfl | rfl |
    rfl | rfl | hl
  · exact h0
  · exact h1
  · exact h2
  · exact h3
  · exact h4
  · exact h5
  · exact h6
  · exact h7
  · exact h8
  · exact h9
  · exact h10
  · exact h11
  · exact h12
  · exact h13
  · exact h14
  · rcases hl with rfl | hl
    · exact h15
    · cases hl

/-- Outside `0..15` no `case` label matches and the `default:` label is taken. -/
theorem switch_default_of_out_of_range (file : String) (l : layer_type)
    (h : l.val < 0 ∨ 15 < l.val) :
    _layer_type_to_category_switch file l =
      Flow.thrown ("" ++ file ++ " " ++ toString (115 : Nat) ++
        " Invalid layer_type specified") := by
  obtain ⟨v⟩ := l
  have hv : v < 0 ∨ 15 < v := h
  simp only [_layer_type_to_category_switch, layer_type.fully_connected,
    layer_type.convolution, layer_type.softmax, layer_type.activation, layer_type.pooling,
    layer_type.local_response_normalization, layer_type.dropout,
    layer_type.batch_normalization, layer_type.input_distributed_minibatch,
    layer_type.input_distributed_minibatch_parallel_io,
    layer_type.input_partitioned_minibatch_parallel_io,
    layer_type.target_distributed_minibatch,
    layer_type.target_distributed_minibatch_parallel_io,
    layer_type.target_partitioned_minibatch_parallel_io, layer_type.reconstruction,
    layer_type.INVALID, layer_type.mk.injEq]
  rw [if_neg (by omega), if_neg (by omega), if_neg (by omega), if_neg (by omega),
    if_neg (by omega), if_neg (by omega), if_neg (by omega)]

/-! ## The classifier `_layer_type_to_category` -/

/-- C1: on each of the sixteen enumerators of `layer_type` the classifier returns a
category (it does not throw), and on the sentinel `INVALID` the category returned is
`invalid`. -/
theorem layer_type_to_category_total_on_enumerators (file : String) (l : layer_type)
    (h : l ∈ layer_type.enumerators) :
    (∃ c, _layer_type_to_category file l = Except.ok c) ∧
      _layer_type_to_category file layer_type.INVALID =
        Except.ok layer_category.invalid := by
  refine ⟨?_, rfl⟩
  revert l
  apply layer_type.forall_enumerators
  exact ⟨⟨_, rfl⟩, ⟨_, rfl⟩, ⟨_, rfl⟩, ⟨_, rfl⟩, ⟨_, rfl⟩, ⟨_, rfl⟩, ⟨_, rfl⟩, ⟨_, rfl⟩,
    ⟨_, rfl⟩, ⟨_, rfl⟩, ⟨_, rfl⟩, ⟨_, rfl⟩, ⟨_, rfl⟩, ⟨_, rfl⟩, ⟨_, rfl⟩, ⟨_, rfl⟩⟩

/-- C1 evaluated at the enumerator `pooling`. -/
theorem layer_type_to_category_total_on_enumerators_witness :
    layer_type.pooling ∈ layer_type.enumerators ∧
      ((∃ c, _layer_type_to_category "lbann_layer.hpp" layer_type.pooling = Except.ok c) ∧
        _layer_type_to_category "lbann_layer.hpp" layer_type.INVALID =
          Except.ok layer_category.invalid) :=
  ⟨by decide,
    layer_type_to_category_total_on_enumerators "lbann_layer.hpp" layer_type.pooling
      (by decide)⟩

/-- C2: on the sixteen enumerators, the classifier returns `invalid` exactly for the
sentinel `INVALID`; none of the fifteen real layer types is put in the invalid category. -/
theorem layer_type_to_category_invalid_iff (file : String) (l : layer_type)
    (h : l ∈ layer_type.enumerators) :
    _layer_type_to_category file l = Except.ok layer_category.invalid ↔
      l = layer_type.INVALID := by
  revert l
  apply layer_type.forall_enumerators
  refine ⟨?_, ?_, ?_, ?_, ?_, ?_, ?_, ?_, ?_, ?_, ?_, ?_, ?_, ?_, ?_, ?_⟩ <;>
    simp [_layer_type_to_category, _layer_type_to_category_switch,
      layer_type.fully_connected, layer_type.convolution, layer_type.softmax,
      layer_type.activation, layer_type.pooling, layer_type.local_response_normalization,
      layer_type.dropout, layer_type.batch_normalization,
      layer_type.input_distributed_minibatch,
      layer_type.input_distributed_minibatch_parallel_io,
      layer_type.input_partitioned_minibatch_parallel_io,
      layer_type.target_distributed_minibatch,
      layer_type.target_distributed_minibatch_parallel_io,
      layer_type.target_partitioned_minibatch_parallel_io, layer_type.reconstruction,
      layer_type.INVALID]

/-- C2 evaluated at the enumerator `dropout`, which is not the sentinel. -/
theorem layer_type_to_category_invalid_iff_witness :
    layer_type.dropout ∈ layer_type.enumerators ∧
      (_layer_type_to_category "lbann_layer.hpp" layer_type.dropout =
          Except.ok layer_category.invalid ↔
        layer_type.dropout = layer_type.INVALID) :=
  ⟨by decide,
    layer_type_to_category_invalid_iff "lbann_layer.hpp" layer_type.dropout (by decide)⟩

/-- C3: for a `layer_type` value whose underlying integer lies outside `0..15`, the switch
leaves by its `throw` (it does not run off its end into the trailing `return`), the call
ends in the thrown string, and no category is returned. -/
theorem layer_type_to_category_throws_out_of_range (file : String) (l : layer_type)
    (h : l.val < 0 ∨ 15 < l.val) :
    _layer_type_to_category_switch file l ≠ Flow.fallthrough ∧
      _layer_type_to_category file l =
        Except.error ("" ++ file ++ " " ++ toString (115 : Nat) ++
          " Invalid layer_type specified") ∧
      ∀ c, _layer_type_to_category file l ≠ Except.ok c := by
  have hs := switch_default_of_out_of_range file l h
  have hf : _layer_type_to_category file l =
      Except.error ("" ++ file ++ " " ++ toString (115 : Nat) ++
        " Invalid layer_type specified") := by
    simp only [_layer_type_to_category, hs]
  refine ⟨?_, hf, ?_⟩
  · rw [hs]
    intro hc
    cases hc
  · intro c hc
    rw [hf] at hc
    cases hc

/-- C3 evaluated at the value 16, the first integer past `INVALID`. -/
theorem layer_type_to_category_throws_out_of_range_witness :
    ((⟨16⟩ : layer_type).val < 0 ∨ 15 < (⟨16⟩ : layer_type).val) ∧
      (_layer_type_to_category_switch "lbann_layer.hpp" ⟨16⟩ ≠ Flow.fallthrough ∧
        _layer_type_to_category "lbann_layer.hpp" ⟨16⟩ =
          Except.error ("" ++ "lbann_layer.hpp" ++ " " ++ toString (115 : Nat) ++
            " Invalid layer_type specified") ∧
        ∀ c, _layer_type_to_category "lbann_layer.hpp" ⟨16⟩ ≠ Except.ok c) :=
  ⟨by decide,
    layer_type_to_category_throws_out_of_range "lbann_layer.hpp" ⟨16⟩ (by decide)⟩

/-- C10: the classification table of the fifteen real layer types; every category other
than `invalid` is the image of some layer type; and the values classified as `learning`
are exactly `fully_connected` and `convolution`. -/
theorem layer_type_to_category_table (file : String) :
    (_layer_type_to_category file layer_type.fully_connected =
        Except.ok layer_category.learning ∧
      _layer_type_to_category file layer_type.convolution =
        Except.ok layer_category.learning ∧
      _layer_type_to_category file layer_type.softmax =
        Except.ok layer_category.activation ∧
      _layer_type_to_category file layer_type.activation =
        Except.ok layer_category.activation ∧
      _layer_type_to_category file layer_type.pooling =
        Except.ok layer_category.transform ∧
      _layer_type_to_category file layer_type.local_response_normalization =
        Except.ok layer_category.regularizer ∧
      _layer_type_to_category file layer_type.dropout =
        Except.ok layer_category.regularizer ∧
      _layer_type_to_category file layer_type.batch_normalization =
        Except.ok layer_category.regularizer ∧
      _layer_type_to_category file layer_type.input_distributed_minibatch =
        Except.ok layer_category.io ∧
      _layer_type_to_category file layer_type.input_distributed_minibatch_parallel_io =
        Except.ok layer_category.io ∧
      _layer_type_to_category file layer_type.input_partitioned_minibatch_parallel_io =
        Except.ok layer_category.io ∧
      _layer_type_to_category file layer_type.target_distributed_minibatch =
        Except.ok layer_category.io ∧
      _layer_type_to_category file layer_type.target_distributed_minibatch_parallel_io =
        Except.ok layer_category.io ∧
      _layer_type_to_category file layer_type.target_partitioned_minibatch_parallel_io =
        Except.ok layer_category.io ∧
      _layer_type_to_category file layer_type.reconstruction =
        Except.ok layer_category.special) ∧
    ((∃ l ∈ layer_type.enumerators, _layer_type_to_category file l =
        Except.ok layer_category.io) ∧
      (∃ l ∈ layer_type.enumerators, _layer_type_to_category file l =
        Except.ok layer_category.learning) ∧
      (∃ l ∈ layer_type.enumerators, _layer_type_to_category file l =
        Except.ok layer_category.activation) ∧
      (∃ l ∈ layer_type.enumerators, _layer_type_to_category file l =
        Except.ok layer_category.regularizer) ∧
      (∃ l ∈ layer_type.enumerators, _layer_type_to_category file l =
        Except.ok layer_category.transform) ∧
      (∃ l ∈ layer_type.enumerators, _layer_type_to_category file l =
        Except.ok layer_category.special)) ∧
    (∀ l : layer_type, _layer_type_to_category file l = Except.ok layer_category.learning ↔
      l = layer_type.fully_connected ∨ l = layer_type.convolution) := by
  refine ⟨⟨rfl, rfl, rfl, rfl, rfl, rfl, rfl, rfl, rfl, rfl, rfl, rfl, rfl, rfl, rfl⟩, ?_, ?_⟩
  · exact ⟨⟨layer_type.input_distributed_minibatch, by decide, rfl⟩,
      ⟨layer_type.fully_connected, by decide, rfl⟩,
      ⟨layer_type.softmax, by decide, rfl⟩,
      ⟨layer_type.dropout, by decide, rfl⟩,
      ⟨layer_type.pooling, by decide, rfl⟩,
      ⟨layer_type.reconstruction, by decide, rfl⟩⟩
  · intro l
    constructor
    · intro h
      by_cases h1 : l = layer_type.fully_connected ∨ l = layer_type.convolution
      · exact h1
      · exfalso
        simp only [_layer_type_to_category, _layer_type_to_category_switch, if_neg h1] at h
        split_ifs at h <;> cases h
    · rintro (rfl | rfl) <;> rfl

/-! ## Member functions of `Layer` -/

/-- C4: after `set_effective_minibatch_size(s)` the effective mini-batch size read back is
`s`, and the local mini-batch size read back is the one read before the call. -/
theorem set_effective_minibatch_size_independent (self : Layer) (s : Int) :
    (self.set_effective_minibatch_size s).get_effective_minibatch_size = s ∧
      (self.set_effective_minibatch_size s).get_minibatch_size =
        self.get_minibatch_size :=
  ⟨rfl, rfl⟩

/-- C5: after `reset_counters()` each of `fp_time`, `bp_time` and `update_time` holds
`0.0`, whatever it held before. -/
theorem reset_counters_zeroes_timers (self : Layer) :
    self.reset_counters.fp_time = double.zero ∧
      self.reset_counters.bp_time = double.zero ∧
      self.reset_counters.update_time = double.zero :=
  ⟨rfl, rfl, rfl⟩

/-- C6: `reset_counters()` leaves every data member other than `fp_time`, `bp_time` and
`update_time` as it was: index, name, type, neuron counts, execution mode, both mini-batch
sizes, every tensor pointer, and the timers `fp_compute_time` and `bp_compute_time`. -/
theorem reset_counters_frame (self : Layer) :
    self.reset_counters =
        { self with
          fp_time := double.zero, bp_time := double.zero, update_time := double.zero } ∧
      self.reset_counters.get_index = self.get_index ∧
      self.reset_counters.get_name = self.get_name ∧
      self.reset_counters.get_type = self.get_type ∧
      self.reset_counters.get_num_neurons = self.get_num_neurons ∧
      self.reset_counters.get_execution_mode = self.get_execution_mode ∧
      self.reset_counters.get_minibatch_size = self.get_minibatch_size ∧
      self.reset_counters.get_effective_minibatch_size =
        self.get_effective_minibatch_size ∧
      self.reset_counters.get_neural_network_model = self.get_neural_network_model ∧
      self.reset_counters.m_comm = self.m_comm ∧
      self.reset_counters.m_prev_layer_type = self.m_prev_layer_type ∧
      self.reset_counters.m_next_layer_type = self.m_next_layer_type ∧
      self.reset_counters.m_num_prev_neurons = self.m_num_prev_neurons ∧
      self.reset_counters.m_prev_error_signal = self.m_prev_error_signal ∧
      self.reset_counters.m_activations = self.m_activations ∧
      self.reset_counters.m_prev_error_signal_v = self.m_prev_error_signal_v ∧
      self.reset_counters.m_activations_v = self.m_activations_v ∧
      self.reset_counters.fp_input = self.fp_input ∧
      self.reset_counters.bp_input = self.bp_input ∧
      self.reset_counters.m_error_signal = self.m_error_signal ∧
      self.reset_counters.m_prev_activations = self.m_prev_activations ∧
      self.reset_counters.m_error_signal_v = self.m_error_signal_v ∧
      self.reset_counters.m_prev_activations_v = self.m_prev_activations_v ∧
      self.reset_counters.m_using_gpus = self.m_using_gpus ∧
      self.reset_counters.m_prev_layer_using_gpus = self.m_prev_layer_using_gpus ∧
      self.reset_counters.m_next_layer_using_gpus = self.m_next_layer_using_gpus ∧
      self.reset_counters.m_cudnn = self.m_cudnn ∧
      self.reset_counters.m_fp_input_pinned = self.m_fp_input_pinned ∧
      self.reset_counters.m_fp_output_pinned = self.m_fp_output_pinned ∧
      self.reset_counters.m_bp_input_pinned = self.m_bp_input_pinned ∧
      self.reset_counters.m_bp_output_pinned = self.m_bp_output_pinned ∧
      self.reset_counters.m_mini_batch_size_per_gpu = self.m_mini_batch_size_per_gpu ∧
      self.reset_counters.m_prev_activations_d = self.m_prev_activations_d ∧
      self.reset_counters.m_activations_d = self.m_activations_d ∧
      self.reset_counters.m_prev_error_signal_d = self.m_prev_error_signal_d ∧
      self.reset_counters.m_error_signal_d = self.m_error_signal_d ∧
      self.reset_counters.fp_input_d = self.fp_input_d ∧
      self.reset_counters.bp_input_d = self.bp_input_d ∧
      self.reset_counters.fp_compute_time = self.fp_compute_time ∧
      self.reset_counters.bp_compute_time = self.bp_compute_time :=
  ⟨rfl, rfl, rfl, rfl, rfl, rfl, rfl, rfl, rfl, rfl, rfl, rfl, rfl, rfl, rfl, rfl, rfl, rfl,
    rfl, rfl, rfl, rfl, rfl, rfl, rfl, rfl, rfl, rfl, rfl, rfl, rfl, rfl, rfl, rfl, rfl, rfl,
    rfl, rfl, rfl, rfl⟩

/-- C7: the default hooks do nothing: `fp_compute()` and `bp_compute()` leave the object as
it was, and `update_compute()` leaves the object as it was and returns `true`. -/
theorem default_compute_hooks_are_noops (self : Layer) :
    self.fp_compute = self ∧ self.bp_compute = self ∧
      self.update_compute.2 = self ∧ self.update_compute.1 = true :=
  ⟨rfl, rfl, rfl, rfl⟩

/-- C8: the base `get_data_layout()` returns `MODEL_PARALLEL` for every object, whatever
its members hold, and leaves the object as it was. -/
theorem get_data_layout_is_model_parallel (self : Layer) :
    self.get_data_layout.1 = data_layout.MODEL_PARALLEL ∧ self.get_data_layout.2 = self :=
  ⟨rfl, rfl⟩

/-- C9 as stated fails: `set_index` is one of the listed operations and it overwrites the
index.  On the sample layer (index 0) the call `set_index(7)` makes `get_index()` return 7. -/
theorem set_index_changes_index :
    (sample_layer.set_index 7).get_index = 7 ∧ sample_layer.get_index = 0 ∧
      (sample_layer.set_index 7).get_index ≠ sample_layer.get_index := by
  decide

/-- C9 amended: the neuron count read back is unchanged by each of `set_name`, `set_index`,
`set_execution_mode`, `set_effective_minibatch_size`, `set_neural_network_model` and
`reset_counters`; the index read back is unchanged by each of them except `set_index`, and
after `set_index(i)` it is `i`. -/
theorem index_and_num_neurons_under_setters (self : Layer) (name : String) (i : Int)
    (mode : execution_mode) (size : Int) (m : ptr) :
    ((self.set_name name).get_num_neurons = self.get_num_neurons ∧
      (self.set_index i).get_num_neurons = self.get_num_neurons ∧
      (self.set_execution_mode mode).get_num_neurons = self.get_num_neurons ∧
      (self.set_effective_minibatch_size size).get_num_neurons = self.get_num_neurons ∧
      (self.set_neural_network_model m).get_num_neurons = self.get_num_neurons ∧
      self.reset_counters.get_num_neurons = self.get_num_neurons) ∧
    ((self.set_name name).get_index = self.get_index ∧
      (self.set_execution_mode mode).get_index = self.get_index ∧
      (self.set_effective_minibatch_size size).get_index = self.get_index ∧
      (self.set_neural_network_model m).get_index = self.get_index ∧
      self.reset_counters.get_index = self.get_index) ∧
    (self.set_index i).get_index = i :=
  ⟨⟨rfl, rfl, rfl, rfl, rfl, rfl⟩, ⟨rfl, rfl, rfl, rfl, rfl⟩, rfl⟩
